import Mathlib

/-!
Shallow embedding of the dnf-ai-analyzer repository (a Fedora package
telemetry collector written in Python) and proofs about it.

The Python code shells out to dnf and rpm, parses the textual stdout of
those commands, aggregates the parsed metrics into a JSON report, and
persists the report under a timestamped filename.  The embedding models
each external command invocation by its observable result (exit code and
stdout text), and models every collector and the aggregator as a pure
Lean function of those results, following the Python source line by line.

String operations are implemented structurally on the underlying
character lists so that every definition evaluates inside the kernel.
Each definition carries a reference to the source file it embeds.
-/

/-! ## Python string primitives

Character-level helpers mirroring the Python string methods used by the
analyzer: strip, lower, split, startswith, the in operator, replace of a
single character, rsplit with maxsplit 1, and int / float parsing.
All of them recurse structurally over character lists. -/

/-- Whitespace recognized by Python str.strip and str.split: space, tab,
newline, carriage return, vertical tab and form feed. -/
def pyIsSpace (c : Char) : Bool :=
  c.toNat = 32 || c.toNat = 9 || c.toNat = 10 || c.toNat = 13 || c.toNat = 11 || c.toNat = 12

/-- ASCII decimal digit test (codepoints 48 to 57), as used when parsing
numeric fields from command output. -/
def pyIsDigit (c : Char) : Bool :=
  48 ≤ c.toNat && c.toNat ≤ 57

/-- Drop leading and trailing whitespace from a character list
(the core of Python str.strip). -/
def stripList (l : List Char) : List Char :=
  ((l.dropWhile pyIsSpace).reverse.dropWhile pyIsSpace).reverse

/-- Python str.strip. -/
def pyStrip (s : String) : String :=
  ⟨stripList s.data⟩

/-- Python str.lower, restricted to the basic latin range actually
occurring in dnf and rpm output. -/
def pyLower (s : String) : String :=
  ⟨s.data.map Char.toLower⟩

/-- Split a character list at every occurrence of the separator
character, keeping empty segments, as Python str.split with an explicit
separator does.  In particular the empty list yields one empty segment. -/
def splitOnChar (sep : Char) : List Char → List (List Char)
  | [] => [[]]
  | c :: rest =>
    if c = sep then
      [] :: splitOnChar sep rest
    else
      match splitOnChar sep rest with
      | [] => [[c]]
      | h :: t => (c :: h) :: t

/-- Python s.split on a newline: the line list the collectors iterate
over. -/
def pyLines (s : String) : List String :=
  (splitOnChar '\n' s.data).map String.mk

/-- Worker for whitespace splitting: accumulates the current word in
reverse. -/
def splitWsGo : List Char → List Char → List String
  | [], cur => if cur = [] then [] else [String.mk cur.reverse]
  | c :: rest, cur =>
    if pyIsSpace c then
      if cur = [] then splitWsGo rest []
      else String.mk cur.reverse :: splitWsGo rest []
    else splitWsGo rest (c :: cur)

/-- Python str.split with no argument: split on whitespace runs and drop
empty words. -/
def pySplitWs (s : String) : List String :=
  splitWsGo s.data []

/-- Python membership test sub in s for substrings. -/
def pyContains (s sub : String) : Bool :=
  decide (List.IsInfix sub.data s.data)

/-- Python membership test c in s for a single character. -/
def containsChar (s : String) (c : Char) : Bool :=
  s.data.contains c

/-- Python str.startswith. -/
def pyStartsWith (s pre : String) : Bool :=
  pre.data.isPrefixOf s.data

/-- Python s.replace(c, empty string): removes every occurrence of the
character c. -/
def removeAllChar (s : String) (c : Char) : String :=
  ⟨s.data.filter (fun x => x ≠ c)⟩

/-- Join character-list segments with a dot (used to rebuild the prefix
of rsplit). -/
def joinWithDot : List (List Char) → List Char
  | [] => []
  | [x] => x
  | x :: xs => x ++ '.' :: joinWithDot xs

/-- Python s.rsplit(dot, 1)[0]: everything before the last dot, or the
whole string when no dot occurs.  Used to drop the architecture suffix
from package names. -/
def rsplitDot1 (s : String) : String :=
  let parts := splitOnChar '.' s.data
  if parts.length ≤ 1 then s else ⟨joinWithDot parts.dropLast⟩

/-- Value of a nonempty all-digit character list, none otherwise. -/
def digitsToNat? (l : List Char) : Option Nat :=
  if l = [] then none
  else l.foldl (fun acc c =>
    acc.bind fun n => if pyIsDigit c then some (n * 10 + (c.toNat - 48)) else none) (some 0)

/-- Python int(s) on decimal text: optional sign around a digit string,
surrounding whitespace allowed; none models the ValueError path. -/
def pyInt? (s : String) : Option Int :=
  match stripList s.data with
  | '-' :: rest => (digitsToNat? rest).map (fun n => -(n : Int))
  | '+' :: rest => (digitsToNat? rest).map (fun n => (n : Int))
  | t => (digitsToNat? t).map (fun n => (n : Int))

/-- Value of an unsigned decimal literal with an optional single point,
as an exact rational; none models the ValueError path of float(s).
The integer-only branch introduces no rational arithmetic. -/
def decimalCore (t : List Char) : Option ℚ :=
  match splitOnChar '.' t with
  | [a] => if a ≠ [] then (digitsToNat? a).map (fun n => ((n : ℕ) : ℚ)) else none
  | [a, b] =>
    if a = [] ∧ b = [] then none
    else match digitsToNat? (a ++ b) with
      | some n => some (((n : ℕ) : ℚ) / 10 ^ b.length)
      | none => none
  | _ => none

/-- Python float(s) on the plain decimal literals produced by dnf size
fields, modelled with exact rational arithmetic (binary floats parse
these short literals to within one unit of the final byte count, and the
subsequent multiplications by powers of 1024 are exact in binary
floating point). -/
def parseDecimal (s : String) : Option ℚ :=
  match stripList s.data with
  | '-' :: rest => (decimalCore rest).map (fun q => -q)
  | '+' :: rest => decimalCore rest
  | t => decimalCore t

/-- Python int(x) on a float value: truncation toward zero. -/
def pyIntTrunc (q : ℚ) : Int :=
  if 0 ≤ q then ⌊q⌋ else ⌈q⌉

/-- Python round(x, 2): rounding to two decimal places.  The embedding
rounds to nearest; the only divergence from float round-half-even is at
exact half-hundredth midpoints, which no claim depends on. -/
def round2 (q : ℚ) : ℚ :=
  ((round (q * 100) : Int) : ℚ) / 100

/-! ## JSON values and Python dictionaries

Collector results and reports are Python dictionaries that are dumped to
JSON.  They are modelled as a JSON value tree whose objects are ordered
association lists, matching insertion-ordered Python dicts. -/

/-- JSON-serializable Python value: None, bool, number, string, list or
dict.  Numbers carry exact rationals (ints have denominator 1). -/
inductive JValue where
  | jnull : JValue
  | jbool (b : Bool) : JValue
  | jnum (q : ℚ) : JValue
  | jstr (s : String) : JValue
  | jarr (elems : List JValue) : JValue
  | jobj (fields : List (String × JValue)) : JValue

/-- Python d.get(key, default) on an object value.  The collectors only
ever apply it to dict values; a non-dict scrutinee returns the default
(where Python would raise AttributeError, a case the analyzer never
reaches because collect_all_metrics stores only dicts). -/
def jGetD (v : JValue) (key : String) (dft : JValue) : JValue :=
  match v with
  | .jobj fields => (fields.lookup key).getD dft
  | _ => dft

/-- Python metrics.get(key, empty dict) on the aggregated metrics
association list. -/
def mGet (m : List (String × JValue)) (key : String) : JValue :=
  (m.lookup key).getD (.jobj [])

/-- Python comparison value > n for a fetched metric: the analyzer only
compares numeric values (or the numeric default 0), so non-numbers
answer false (where Python would raise TypeError, a case the analyzer
never reaches). -/
def jGtNum (v : JValue) (n : ℚ) : Bool :=
  match v with
  | .jnum q => decide (n < q)
  | _ => false

/-- Python truthiness of a value, as used for the fetched can_clean and
has_issues flags. -/
def pyTruthy (v : JValue) : Bool :=
  match v with
  | .jnull => false
  | .jbool b => b
  | .jnum q => decide (q ≠ 0)
  | .jstr s => decide (s ≠ "")
  | .jarr l => !l.isEmpty
  | .jobj l => !l.isEmpty

/-- Numeric payload of a value, 0 for non-numbers: used to state claims
about stored counters. -/
def jNumVal (v : JValue) : ℚ :=
  match v with
  | .jnum q => q
  | _ => 0

/-- Element list of an array value, empty for non-arrays: used to state
claims about stored record lists. -/
def jArrElems (v : JValue) : List JValue :=
  match v with
  | .jarr l => l
  | _ => []

/-- Rendering of a numeric value inside an f-string message.  Messages
are carried verbatim in the report but no claim inspects them, so
integer rendering fidelity is all that is ever exercised. -/
def pyNumRepr (v : JValue) : String :=
  match v with
  | .jnum q => if q.den = 1 then toString q.num else toString q.num ++ "/" ++ toString q.den
  | _ => ""

/-! ## External command results -/

/-- Observable result of one subprocess.run invocation: exit code and
captured stdout text.  A run that raises (timeout, missing binary) is
modelled at the call sites that catch it. -/
structure CmdResult where
  exitCode : Int
  stdout : String
deriving DecidableEq

/-! ## Collector: installed packages (src/analyzer/modules/packages.py) -/

/-- Package record parsed from one line of rpm -qa queryformat output:
name, byte size, megabyte size, version. -/
structure SizedPackage where
  name : String
  size_bytes : Int
  size_mb : ℚ
  version : String
deriving DecidableEq

/-- Parse of one queryformat line in get_packages_by_size: requires a
pipe character and at least three pipe-separated fields; a size field
that int() rejects skips the line (the except-continue branch). -/
def parseSizedLine (line : String) : Option SizedPackage :=
  if containsChar line '|' then
    let parts := (splitOnChar '|' line.data).map String.mk
    if 3 ≤ parts.length then
      match pyInt? (parts.getD 1 "") with
      | some n =>
        some ⟨parts.getD 0 "", n, round2 ((n : ℚ) / (1024 * 1024)), parts.getD 2 ""⟩
      | none => none
    else none
  else none

/-- Stable descending insertion by size_bytes: inserts after every
earlier element of greater or equal size. -/
def insertBySizeDesc (x : SizedPackage) : List SizedPackage → List SizedPackage
  | [] => [x]
  | y :: ys => if x.size_bytes ≤ y.size_bytes then y :: insertBySizeDesc x ys else x :: y :: ys

/-- Stable sort in decreasing size_bytes order, the unique output of the
Python stable packages.sort(key size_bytes, reverse) call. -/
def sortBySizeDesc (l : List SizedPackage) : List SizedPackage :=
  l.foldl (fun acc x => insertBySizeDesc x acc) []

/-- packages.get_packages_by_size: on exit code 0, parse the stripped
stdout line by line and sort by size descending; otherwise (including
the exception path) the empty list. -/
def get_packages_by_size (r : CmdResult) : List SizedPackage :=
  if r.exitCode = 0 then
    sortBySizeDesc ((pyLines (pyStrip r.stdout)).filterMap parseSizedLine)
  else []

/-- Counters returned by packages.get_package_count. -/
structure PackageCount where
  total : Int
  user_installed : Int
  dependencies : Int
deriving DecidableEq

/-- packages.get_package_count: total is the line count of the stripped
rpm -qa stdout (note that an empty stdout still yields one empty line),
user_installed counts the nonblank lines of dnf repoquery userinstalled,
and dependencies is their difference. -/
def get_package_count (rpmQa userInst : CmdResult) : PackageCount :=
  let total : Int := if rpmQa.exitCode = 0 then ((pyLines (pyStrip rpmQa.stdout)).length : Int) else 0
  let user : Int :=
    if userInst.exitCode = 0 then
      (((pyLines (pyStrip userInst.stdout)).filter (fun l => pyStrip l ≠ "")).length : Int)
    else 0
  ⟨total, user, total - user⟩

/-- JSON image of a sized package record. -/
def sizedPackageToJ (p : SizedPackage) : JValue :=
  .jobj [("name", .jstr p.name), ("size_bytes", .jnum (p.size_bytes : ℚ)),
         ("size_mb", .jnum p.size_mb), ("version", .jstr p.version)]

/-- packages.collect_package_metrics: counts, the 50 largest packages,
total size, and the capped top-20 and top-100 lists. -/
def collect_package_metrics (rpmQa userInst rpmQaFmt : CmdResult) : JValue :=
  let counts := get_package_count rpmQa userInst
  let packages_by_size := (get_packages_by_size rpmQaFmt).take 50
  let total_size_bytes : Int := (packages_by_size.map (fun p => p.size_bytes)).sum
  .jobj [
    ("summary", .jobj [
      ("total_packages", .jnum (counts.total : ℚ)),
      ("user_installed", .jnum (counts.user_installed : ℚ)),
      ("dependencies", .jnum (counts.dependencies : ℚ)),
      ("total_size_gb", .jnum (round2 ((total_size_bytes : ℚ) / (1024 * 1024 * 1024))))]),
    ("largest_packages", .jarr ((packages_by_size.take 20).map sizedPackageToJ)),
    ("all_packages_sample", .jarr ((packages_by_size.take 100).map sizedPackageToJ))]

/-- Branch of packages.get_package_details that converts one Size field
value to bytes: lowercase the text, then dispatch on which of k, m, g
occurs (in that fixed order), remove that character everywhere, strip,
parse as float and scale by the matching power of 1024, truncating to
int.  Returns the resulting size_bytes; none models a float() parse
failure (the surrounding except swallows it), and a value with no unit
letter leaves the initial size of 0. -/
def parse_size_bytes (value : String) : Option Int :=
  if containsChar (pyLower value) 'k' then
    (parseDecimal (pyStrip (removeAllChar (pyLower value) 'k'))).map
      (fun v => pyIntTrunc (v * 1024))
  else if containsChar (pyLower value) 'm' then
    (parseDecimal (pyStrip (removeAllChar (pyLower value) 'm'))).map
      (fun v => pyIntTrunc (v * 1024 * 1024))
  else if containsChar (pyLower value) 'g' then
    (parseDecimal (pyStrip (removeAllChar (pyLower value) 'g'))).map
      (fun v => pyIntTrunc (v * 1024 * 1024 * 1024))
  else some 0

/-! ## Collector: available updates (src/analyzer/modules/updates.py) -/

/-- Update record: package (architecture suffix removed), new version,
repository. -/
structure UpdateRec where
  package : String
  new_version : String
  repository : String
deriving DecidableEq

/-- Security advisory record: advisory id, the literal type security,
and severity. -/
structure SecurityRec where
  advisory : String
  typ : String
  severity : String
deriving DecidableEq

/-- updates.get_updates_available: dnf check-update succeeds with exit
code 0 or 100; skip blank lines and the Last / Security header lines;
a line with at least three whitespace-separated fields yields a record. -/
def get_updates_available (r : CmdResult) : List UpdateRec :=
  if r.exitCode = 0 ∨ r.exitCode = 100 then
    (pyLines (pyStrip r.stdout)).filterMap (fun line =>
      if pyStrip line = "" ∨ pyStartsWith line "Last" ∨ pyStartsWith line "Security" then none
      else
        let parts := pySplitWs line
        if 3 ≤ parts.length then
          some ⟨rsplitDot1 (parts.getD 0 ""), parts.getD 1 "", parts.getD 2 ""⟩
        else none)
  else []

/-- updates.get_security_updates: lines mentioning FEDORA or (after
lowering) security, with at least two fields, yield advisory records. -/
def get_security_updates (r : CmdResult) : List SecurityRec :=
  if r.exitCode = 0 then
    (pyLines (pyStrip r.stdout)).filterMap (fun line =>
      if pyContains line "FEDORA" ∨ pyContains (pyLower line) "security" then
        let parts := pySplitWs line
        if 2 ≤ parts.length then some ⟨parts.getD 0 "", "security", parts.getD 1 ""⟩ else none
      else none)
  else []

/-- JSON image of an update record. -/
def updateToJ (u : UpdateRec) : JValue :=
  .jobj [("package", .jstr u.package), ("new_version", .jstr u.new_version),
         ("repository", .jstr u.repository)]

/-- JSON image of a security advisory record. -/
def securityToJ (s : SecurityRec) : JValue :=
  .jobj [("advisory", .jstr s.advisory), ("type", .jstr s.typ), ("severity", .jstr s.severity)]

/-- updates.get_update_summary: totals plus the capped lists (30 updates,
10 advisories). -/
def get_update_summary (chk sec : CmdResult) : JValue :=
  let updates := get_updates_available chk
  let security := get_security_updates sec
  .jobj [("total_updates", .jnum (updates.length : ℚ)),
         ("security_updates", .jnum (security.length : ℚ)),
         ("updates_list", .jarr ((updates.take 30).map updateToJ)),
         ("security_list", .jarr ((security.take 10).map securityToJ))]

/-- updates.collect_update_metrics delegates to get_update_summary. -/
def collect_update_metrics (chk sec : CmdResult) : JValue :=
  get_update_summary chk sec

/-! ## Collector: orphaned packages (src/analyzer/modules/orphans.py) -/

/-- orphans.get_orphaned_packages: nonblank lines of dnf repoquery
unneeded output, architecture suffix removed. -/
def get_orphaned_packages (r : CmdResult) : List String :=
  if r.exitCode = 0 then
    (pyLines (pyStrip r.stdout)).filterMap (fun line =>
      if pyStrip line ≠ "" then some (rsplitDot1 (pyStrip line)) else none)
  else []

/-- State machine of orphans.get_autoremovable_packages: after a line
mentioning Removing, collect the first field of each nonblank line that
does not start with Transaction and whose first field is none of
Installing, Upgrading, Removing. -/
def autoremoveGo : List String → Bool → List String
  | [], _ => []
  | line :: rest, inSec =>
    if pyContains line "Removing:" ∨ pyContains line "Removing" then autoremoveGo rest true
    else if inSec then
      if pyStrip line ≠ "" ∧ ¬ pyStartsWith line "Transaction" then
        let parts := pySplitWs line
        if 1 ≤ parts.length ∧
            ¬ (parts.getD 0 "" = "Installing" ∨ parts.getD 0 "" = "Upgrading" ∨
               parts.getD 0 "" = "Removing") then
          parts.getD 0 "" :: autoremoveGo rest true
        else autoremoveGo rest true
      else autoremoveGo rest true
    else autoremoveGo rest false

/-- orphans.get_autoremovable_packages: parses the raw (unstripped)
stdout of dnf autoremove assumeno; note the source never checks the exit
code here. -/
def get_autoremovable_packages (r : CmdResult) : List String :=
  autoremoveGo (pyLines r.stdout) false

/-- JSON image of a name-only record. -/
def nameToJ (n : String) : JValue :=
  .jobj [("name", .jstr n)]

/-- orphans.collect_orphan_metrics: counts plus the capped lists
(50 orphans, 30 autoremovables). -/
def collect_orphan_metrics (unneeded autorem : CmdResult) : JValue :=
  let orphaned := get_orphaned_packages unneeded
  let autoremove := get_autoremovable_packages autorem
  .jobj [("orphaned_count", .jnum (orphaned.length : ℚ)),
         ("orphaned_packages", .jarr ((orphaned.take 50).map nameToJ)),
         ("autoremovable_count", .jnum (autoremove.length : ℚ)),
         ("autoremovable_packages", .jarr ((autoremove.take 30).map nameToJ))]

/-! ## Collector: dnf cache (src/analyzer/modules/cache.py) -/

/-- cache.get_cache_size: the filesystem walk is abstracted by whether
the cache directory exists and the total byte count it found.  When the
directory exists, total_size_mb is updated in place and total_size_gb is
appended; otherwise the initial dict (with total_size_mb 0 and no
total_size_gb key) is returned. -/
def get_cache_size (cacheDirExists : Bool) (totalBytes : Nat) : List (String × JValue) :=
  if cacheDirExists then
    [("total_size_mb", .jnum (round2 ((totalBytes : ℚ) / (1024 * 1024)))),
     ("packages_cache", .jnum 0), ("metadata_cache", .jnum 0),
     ("cache_dir", .jstr "/var/cache/dnf"),
     ("total_size_gb", .jnum (round2 ((totalBytes : ℚ) / (1024 * 1024 * 1024))))]
  else
    [("total_size_mb", .jnum 0), ("packages_cache", .jnum 0), ("metadata_cache", .jnum 0),
     ("cache_dir", .jstr "/var/cache/dnf")]

/-- cache.get_cache_info_dnf: first whitespace field of the du output on
success; an empty stdout raises IndexError which the except swallows,
leaving the info dict empty. -/
def get_cache_info_dnf (du : CmdResult) : List (String × JValue) :=
  if du.exitCode = 0 then
    match pySplitWs du.stdout with
    | [] => []
    | w :: _ => [("cache_size_human", .jstr w)]
  else []

/-- Stored total_size_mb of the cache size dict (always present). -/
def cacheMb (cache_size : List (String × JValue)) : ℚ :=
  jNumVal ((cache_size.lookup "total_size_mb").getD (.jnum 0))

/-- cache.collect_cache_metrics: merge of the size dict, the du info and
the can_clean flag, which compares total_size_mb against 100 MB. -/
def collect_cache_metrics (cacheDirExists : Bool) (totalBytes : Nat) (du : CmdResult) : JValue :=
  let cache_size := get_cache_size cacheDirExists totalBytes
  let cache_info := get_cache_info_dnf du
  .jobj (cache_size ++ cache_info ++
    [("can_clean", .jbool (decide (100 < cacheMb cache_size)))])

/-! ## Collector: dependencies (src/analyzer/modules/dependencies.py) -/

/-- dependencies.check_broken_dependencies: when dnf check exits nonzero,
lines mentioning missing or broken (lowercased) become issue records;
independently, when rpm -Va has nonblank stdout, its first ten nonblank
stripped lines become rpm_issue records. -/
def check_broken_dependencies (dnfCheck rpmVa : CmdResult) : List JValue :=
  (if dnfCheck.exitCode ≠ 0 then
    (pyLines dnfCheck.stdout).filterMap (fun line =>
      if pyContains (pyLower line) "missing" ∨ pyContains (pyLower line) "broken" then
        some (.jobj [("issue", .jstr (pyStrip line))])
      else none)
  else [])
  ++
  (if pyStrip rpmVa.stdout ≠ "" then
    ((pyLines (pyStrip rpmVa.stdout)).take 10).filterMap (fun line =>
      if pyStrip line ≠ "" then some (.jobj [("rpm_issue", .jstr (pyStrip line))]) else none)
  else [])

/-- dependencies.get_duplicate_packages: nonblank lines of dnf repoquery
duplicates output on success. -/
def get_duplicate_packages (r : CmdResult) : List JValue :=
  if r.exitCode = 0 then
    (pyLines (pyStrip r.stdout)).filterMap (fun line =>
      if pyStrip line ≠ "" then some (.jobj [("package", .jstr (pyStrip line))]) else none)
  else []

/-- dependencies.collect_dependency_metrics: counts, capped lists of 20,
and the has_issues flag. -/
def collect_dependency_metrics (dnfCheck rpmVa dup : CmdResult) : JValue :=
  let broken := check_broken_dependencies dnfCheck rpmVa
  let duplicates := get_duplicate_packages dup
  .jobj [("broken_dependencies", .jnum (broken.length : ℚ)),
         ("broken_list", .jarr (broken.take 20)),
         ("duplicate_packages", .jnum (duplicates.length : ℚ)),
         ("duplicate_list", .jarr (duplicates.take 20)),
         ("has_issues", .jbool (decide (0 < broken.length ∨ 0 < duplicates.length)))]

/-! ## Aggregator (src/analyzer/package_analyzer.py) -/

/-- Outcome of one collector call as seen by the aggregator: either the
returned metrics value or the message of the exception it raised. -/
def collectorResult (r : Except String JValue) : JValue :=
  match r with
  | .ok v => v
  | .error e => .jobj [("error", .jstr e)]

/-- package_analyzer.collect_all_metrics: calls the five collectors in a
fixed order, storing each result, or on exception the error placeholder
dict, under its fixed key.  Total by construction: no collector outcome
escapes the per-collector boundary. -/
def collect_all_metrics (p u o c d : Except String JValue) : List (String × JValue) :=
  [("packages", collectorResult p),
   ("updates", collectorResult u),
   ("orphans", collectorResult o),
   ("cache", collectorResult c),
   ("dependencies", collectorResult d)]

/-- Severity-tagged issue derived by generate_report. -/
structure Issue where
  type : String
  severity : String
  message : String
deriving DecidableEq

/-- Issue derivation of package_analyzer.generate_report: the five
threshold rules applied to the merged metrics, in source order. -/
def deriveIssues (m : List (String × JValue)) : List Issue :=
  (if jGtNum (jGetD (mGet m "updates") "total_updates" (.jnum 0)) 0 then
    [⟨"updates", "info",
      pyNumRepr (jGetD (mGet m "updates") "total_updates" (.jnum 0)) ++
        " atualizações disponíveis"⟩]
  else []) ++
  (if jGtNum (jGetD (mGet m "updates") "security_updates" (.jnum 0)) 0 then
    [⟨"security", "warning",
      pyNumRepr (jGetD (mGet m "updates") "security_updates" (.jnum 0)) ++
        " atualizações de segurança disponíveis"⟩]
  else []) ++
  (if jGtNum (jGetD (mGet m "orphans") "orphaned_count" (.jnum 0)) 10 then
    [⟨"orphans", "info",
      pyNumRepr (jGetD (mGet m "orphans") "orphaned_count" (.jnum 0)) ++
        " pacotes órfãos detectados"⟩]
  else []) ++
  (if pyTruthy (jGetD (mGet m "cache") "can_clean" (.jbool false)) then
    [⟨"cache", "info",
      "Cache do DNF ocupando " ++
        pyNumRepr (jGetD (mGet m "cache") "total_size_mb" .jnull) ++ "MB"⟩]
  else []) ++
  (if pyTruthy (jGetD (mGet m "dependencies") "has_issues" (.jbool false)) then
    [⟨"dependencies", "warning", "Problemas de dependências detectados"⟩]
  else [])

/-- Aggregated report of generate_report: timestamps, merged metrics,
derived issues and the summary roll-up. -/
structure Report where
  timestamp : String
  timestamp_unix : Int
  metrics : List (String × JValue)
  issues : List Issue
  summary : List (String × JValue)

/-- package_analyzer.generate_report: aggregates the collector outcomes,
derives the issue list and assembles the summary exactly as the source
does (the timestamp strings are taken as inputs of the run). -/
def generate_report (tsIso : String) (tsUnix : Int)
    (p u o c d : Except String JValue) : Report :=
  let metrics := collect_all_metrics p u o c d
  let issues := deriveIssues metrics
  { timestamp := tsIso
    timestamp_unix := tsUnix
    metrics := metrics
    issues := issues
    summary := [
      ("total_packages",
        jGetD (jGetD (mGet metrics "packages") "summary" (.jobj [])) "total_packages" (.jnum 0)),
      ("total_updates", jGetD (mGet metrics "updates") "total_updates" (.jnum 0)),
      ("total_issues", .jnum (issues.length : ℚ)),
      ("cache_size_mb", jGetD (mGet metrics "cache") "total_size_mb" (.jnum 0))] }

/-- Stored numeric summary field of a report. -/
def summaryNum (r : Report) (key : String) : ℚ :=
  jNumVal ((r.summary.lookup key).getD .jnull)

/-- JSON image of an issue. -/
def issueToJ (i : Issue) : JValue :=
  .jobj [("type", .jstr i.type), ("severity", .jstr i.severity), ("message", .jstr i.message)]

/-- JSON document of a report, in the field order of the source dict. -/
def reportToJson (r : Report) : JValue :=
  .jobj [("timestamp", .jstr r.timestamp),
         ("timestamp_unix", .jnum (r.timestamp_unix : ℚ)),
         ("metrics", .jobj r.metrics),
         ("issues", .jarr (r.issues.map issueToJ)),
         ("summary", .jobj r.summary)]

/-! ## Persister (package_analyzer.save_report) -/

/-- Wall-clock reading at second granularity, the input of
datetime.now().strftime. -/
structure Timestamp where
  year : Nat
  month : Nat
  day : Nat
  hour : Nat
  minute : Nat
  second : Nat
deriving DecidableEq

/-- Field bounds under which each strftime directive prints exactly its
fixed width (every calendar reading satisfies them). -/
def Timestamp.widthBounded (t : Timestamp) : Prop :=
  t.year < 10000 ∧ t.month < 100 ∧ t.day < 100 ∧ t.hour < 100 ∧ t.minute < 100 ∧ t.second < 100

instance (t : Timestamp) : Decidable t.widthBounded := by
  unfold Timestamp.widthBounded
  infer_instance

/-- Fixed-width big-endian base-10 digit values of n (zero padded,
truncated to the low w digits; the bounded use sites never truncate). -/
def padDigitsBE : Nat → Nat → List Nat
  | 0, _ => []
  | w + 1, n => padDigitsBE w (n / 10) ++ [n % 10]

/-- Character of one decimal digit value. -/
def digitChar10 : Nat → Char
  | 0 => '0' | 1 => '1' | 2 => '2' | 3 => '3' | 4 => '4'
  | 5 => '5' | 6 => '6' | 7 => '7' | 8 => '8' | 9 => '9'
  | _ => '?'

/-- Zero-padded fixed-width decimal rendering, as printed by the %0wd
style strftime directives. -/
def padNumChars (w n : Nat) : List Char :=
  (padDigitsBE w n).map digitChar10

/-- strftime with format %Y%m%d_%H%M%S, the filename timestamp of
save_report. -/
def strftime_Ymd_HMS (t : Timestamp) : String :=
  ⟨padNumChars 4 t.year ++ padNumChars 2 t.month ++ padNumChars 2 t.day ++
   '_' :: (padNumChars 2 t.hour ++ padNumChars 2 t.minute ++ padNumChars 2 t.second)⟩

/-- Filename computed by save_report. -/
def save_filename (t : Timestamp) : String :=
  "packages_" ++ strftime_Ymd_HMS t ++ ".json"

/-- Output directory resolution of save_report: the configured
output_dir or the hard-coded default. -/
def output_dir_of (config_output_dir : Option String) : String :=
  config_output_dir.getD "/home/montezuma/.bin/data/scripts-data/reports/raw"

/-- Full file path computed by save_report (pathlib joins with a
slash). -/
def save_filepath (config_output_dir : Option String) (t : Timestamp) : String :=
  output_dir_of config_output_dir ++ "/" ++ save_filename t

/-- package_analyzer.save_report, modelled by its observable effect: the
path it writes to and the JSON document it serializes there (the source
writes it UTF-8 encoded with ensure_ascii disabled). -/
def save_report (report : Report) (config_output_dir : Option String) (t : Timestamp) :
    String × JValue :=
  (save_filepath config_output_dir t, reportToJson report)

/-! ## Entry points (package_analyzer.main, ai_package_reporter.main) -/

/-- Outcome of the guarded body of an entry point: ran to completion,
was interrupted by KeyboardInterrupt, or raised any other exception. -/
inductive RunOutcome where
  | completed : RunOutcome
  | interrupted : RunOutcome
  | failed (msg : String) : RunOutcome

/-- Exit code of package_analyzer.main: sys.exit(0) at the end of the
try body, sys.exit(130) in the KeyboardInterrupt handler, sys.exit(1) in
the generic exception handler. -/
def main_exit_code : RunOutcome → Nat
  | .completed => 0
  | .interrupted => 130
  | .failed _ => 1

/-- Exit code of ai_package_reporter.main, whose handler structure is
identical (falling off the try body exits the process with 0). -/
def reporter_main_exit_code : RunOutcome → Nat
  | .completed => 0
  | .interrupted => 130
  | .failed _ => 1

/-- Module-level API key gate of ai_package_reporter: os.getenv yields
none when the variable is unset; a falsy value (unset or empty) prints
an error and exits with code 1 before any client is configured, and
otherwise startup proceeds holding the key. -/
def reporter_startup (gemini_api_key : Option String) : Except Nat String :=
  match gemini_api_key with
  | none => .error 1
  | some k => if k = "" then .error 1 else .ok k

/-! ## Theorems -/

/-- Concrete command result used in the empty-output scenario: exit code
0 with empty stdout. -/
def emptyOk : CmdResult := ⟨0, ""⟩

/-- Report produced by the run in which every external command exits 0
with empty stdout and the dnf cache directory is absent. -/
def emptyOutputReport : Report :=
  generate_report "2025-01-01T00:00:00" 1735689600
    (.ok (collect_package_metrics emptyOk emptyOk emptyOk))
    (.ok (collect_update_metrics emptyOk emptyOk))
    (.ok (collect_orphan_metrics emptyOk emptyOk))
    (.ok (collect_cache_metrics false 0 emptyOk))
    (.ok (collect_dependency_metrics emptyOk emptyOk emptyOk))

/-- Character class of the numeric part of a dnf size text: an ASCII
digit or the decimal point. -/
def digitOrDot (c : Char) : Prop :=
  (48 ≤ c.toNat ∧ c.toNat ≤ 57) ∨ c = '.'

instance (c : Char) : Decidable (digitOrDot c) := by
  unfold digitOrDot
  infer_instance

/-- C1: for every combination of collector outcomes, the merged metrics
dict binds all five top-level keys, each to its collector result, and a
collector that raised exception e is bound to the error placeholder dict
with message e; collect_all_metrics is a total function of the outcomes,
so no outcome escapes the aggregation boundary. -/
theorem collect_all_metrics_five_keys_and_error_placeholders
    (p u o c d : Except String JValue) :
    (collect_all_metrics p u o c d).lookup "packages" = some (collectorResult p) ∧
    (collect_all_metrics p u o c d).lookup "updates" = some (collectorResult u) ∧
    (collect_all_metrics p u o c d).lookup "orphans" = some (collectorResult o) ∧
    (collect_all_metrics p u o c d).lookup "cache" = some (collectorResult c) ∧
    (collect_all_metrics p u o c d).lookup "dependencies" = some (collectorResult d) ∧
    (∀ e : String, collectorResult (.error e) = .jobj [("error", .jstr e)]) :=
  ⟨rfl, rfl, rfl, rfl, rfl, fun _ => rfl⟩

/-- C2: issue derivation is a pure function of the merged metrics
applying exactly the five threshold rules: an updates/info issue is
present iff total_updates exceeds 0, a security/warning issue iff
security_updates exceeds 0, an orphans/info issue iff orphaned_count
exceeds 10, a cache/info issue iff the can_clean flag is truthy, a
dependencies/warning issue iff the has_issues flag is truthy; the number
of issues equals the number of triggered rules and every issue carries
one of the five types. -/
theorem generate_report_issue_rules (m : List (String × JValue)) :
    ((deriveIssues m).any (fun i => i.type == "updates" && i.severity == "info") =
      jGtNum (jGetD (mGet m "updates") "total_updates" (.jnum 0)) 0) ∧
    ((deriveIssues m).any (fun i => i.type == "security" && i.severity == "warning") =
      jGtNum (jGetD (mGet m "updates") "security_updates" (.jnum 0)) 0) ∧
    ((deriveIssues m).any (fun i => i.type == "orphans" && i.severity == "info") =
      jGtNum (jGetD (mGet m "orphans") "orphaned_count" (.jnum 0)) 10) ∧
    ((deriveIssues m).any (fun i => i.type == "cache" && i.severity == "info") =
      pyTruthy (jGetD (mGet m "cache") "can_clean" (.jbool false))) ∧
    ((deriveIssues m).any (fun i => i.type == "dependencies" && i.severity == "warning") =
      pyTruthy (jGetD (mGet m "dependencies") "has_issues" (.jbool false))) ∧
    ((deriveIssues m).length =
      (jGtNum (jGetD (mGet m "updates") "total_updates" (.jnum 0)) 0).toNat +
      (jGtNum (jGetD (mGet m "updates") "security_updates" (.jnum 0)) 0).toNat +
      (jGtNum (jGetD (mGet m "orphans") "orphaned_count" (.jnum 0)) 10).toNat +
      (pyTruthy (jGetD (mGet m "cache") "can_clean" (.jbool false))).toNat +
      (pyTruthy (jGetD (mGet m "dependencies") "has_issues" (.jbool false))).toNat) ∧
    ((deriveIssues m).all (fun i =>
      i.type == "updates" || i.type == "security" || i.type == "orphans" ||
      i.type == "cache" || i.type == "dependencies") = true) := by
  cases h1 : jGtNum (jGetD (mGet m "updates") "total_updates" (.jnum 0)) 0 <;>
  cases h2 : jGtNum (jGetD (mGet m "updates") "security_updates" (.jnum 0)) 0 <;>
  cases h3 : jGtNum (jGetD (mGet m "orphans") "orphaned_count" (.jnum 0)) 10 <;>
  cases h4 : pyTruthy (jGetD (mGet m "cache") "can_clean" (.jbool false)) <;>
  cases h5 : pyTruthy (jGetD (mGet m "dependencies") "has_issues" (.jbool false)) <;>
    simp [deriveIssues, h1, h2, h3, h4, h5]

/-- C3 (code evaluation at the failing input): in the run where every
external command exits 0 with empty stdout and the cache directory is
absent, the report summary has total_updates 0 and total_issues 0 as the
spec demands, but total_packages is 1, not 0: get_package_count counts
the single empty line that splitting the empty rpm stdout produces. -/
theorem empty_output_run_summary :
    summaryNum emptyOutputReport "total_packages" = 1 ∧
    summaryNum emptyOutputReport "total_updates" = 0 ∧
    summaryNum emptyOutputReport "total_issues" = 0 := by
  refine ⟨rfl, rfl, rfl⟩

/-- C6: every collector caps its stored record lists independently of
how many lines the external command produced: at most 20
largest_packages and 100 all_packages_sample entries, at most 30
updates_list and 10 security_list entries, at most 50 orphaned_packages
and 30 autoremovable_packages entries. -/
theorem collectors_truncate_to_caps (r1 r2 r3 chk sec unne auto : CmdResult) :
    (jArrElems (jGetD (collect_package_metrics r1 r2 r3) "largest_packages" .jnull)).length ≤ 20 ∧
    (jArrElems (jGetD (collect_package_metrics r1 r2 r3) "all_packages_sample" .jnull)).length ≤ 100 ∧
    (jArrElems (jGetD (collect_update_metrics chk sec) "updates_list" .jnull)).length ≤ 30 ∧
    (jArrElems (jGetD (collect_update_metrics chk sec) "security_list" .jnull)).length ≤ 10 ∧
    (jArrElems (jGetD (collect_orphan_metrics unne auto) "orphaned_packages" .jnull)).length ≤ 50 ∧
    (jArrElems (jGetD (collect_orphan_metrics unne auto) "autoremovable_packages" .jnull)).length ≤ 30 := by
  refine ⟨?_, ?_, ?_, ?_, ?_, ?_⟩ <;>
    simp [collect_package_metrics, collect_update_metrics, get_update_summary,
      collect_orphan_metrics, jGetD, jArrElems, List.lookup]

/-- C7: the analyzer entry point exits 0 exactly when the guarded run
completes, 130 exactly on a KeyboardInterrupt inside the run, and 1
exactly on any other unhandled exception; the reporter entry point maps
outcomes to exit codes identically. -/
theorem main_exit_codes (o : RunOutcome) :
    (main_exit_code o = 0 ↔ o = .completed) ∧
    (main_exit_code o = 130 ↔ o = .interrupted) ∧
    (main_exit_code o = 1 ↔ ∃ e, o = .failed e) ∧
    reporter_main_exit_code o = main_exit_code o := by
  cases o <;> simp [main_exit_code, reporter_main_exit_code]

/-- C8: the reporter terminates at startup with exit code 1 exactly when
the GEMINI_API_KEY variable is unset or empty; otherwise startup
proceeds holding the key. -/
theorem reporter_requires_api_key (env : Option String) :
    (reporter_startup env = .error 1 ↔ (env = none ∨ env = some "")) ∧
    (∀ k : String, ¬ k = "" → reporter_startup (some k) = .ok k) := by
  constructor
  · cases env with
    | none => simp [reporter_startup]
    | some k =>
      by_cases hk : k = "" <;> simp [reporter_startup, hk]
  · intro k hk
    simp [reporter_startup, hk]

/-- C10: the can_clean flag stored by collect_cache_metrics is true
exactly when the stored total_size_mb exceeds 100, and total_size_mb is
the rounded megabyte count of the walked cache directory (0 when the
directory is absent): the cleanup threshold is exactly 100 MB. -/
theorem collect_cache_metrics_can_clean_threshold
    (cacheDirExists : Bool) (totalBytes : Nat) (du : CmdResult) :
    (jGetD (collect_cache_metrics cacheDirExists totalBytes du) "can_clean" .jnull = .jbool true ↔
      100 < jNumVal (jGetD (collect_cache_metrics cacheDirExists totalBytes du) "total_size_mb" .jnull)) ∧
    jNumVal (jGetD (collect_cache_metrics cacheDirExists totalBytes du) "total_size_mb" .jnull) =
      (if cacheDirExists then round2 ((totalBytes : ℚ) / (1024 * 1024)) else 0) := by
  have hinfo : get_cache_info_dnf du = [] ∨
      ∃ w, get_cache_info_dnf du = [("cache_size_human", .jstr w)] := by
    unfold get_cache_info_dnf
    by_cases hdu : du.exitCode = 0
    · cases hsp : pySplitWs du.stdout with
      | nil => left; simp [hdu, hsp]
      | cons w ws => right; exact ⟨w, by simp [hdu, hsp]⟩
    · left; simp [hdu]
  rcases hinfo with hinfo | ⟨w, hinfo⟩ <;>
    cases cacheDirExists <;>
      simp [collect_cache_metrics, get_cache_size, hinfo, cacheMb, jGetD, jNumVal,
        List.lookup, decide_eq_true_iff]

/-! ### Size conversion (C4) -/

/-- A digit or dot character is unchanged by lowering. -/
theorem digitOrDot_toLower (c : Char) (h : digitOrDot c) : c.toLower = c := by
  rcases h with h | h
  · simp only [Char.toLower]
    rw [if_neg]
    omega
  · subst h
    decide

/-- A digit or dot character is not whitespace. -/
theorem digitOrDot_not_space (c : Char) (h : digitOrDot c) : pyIsSpace c = false := by
  rcases h with h | h
  · simp only [pyIsSpace, Bool.or_eq_false_iff, decide_eq_false_iff_not]
    omega
  · subst h
    decide

/-- A digit or dot character is none of the unit letters. -/
theorem digitOrDot_ne_unit (c : Char) (h : digitOrDot c) : c ≠ 'k' ∧ c ≠ 'm' ∧ c ≠ 'g' := by
  rcases h with h | h
  · refine ⟨?_, ?_, ?_⟩ <;> intro he <;> subst he <;> revert h <;> decide
  · subst h
    decide

/-- Lowering fixes a character list made of digits and dots. -/
theorem map_toLower_digitOrDot (L : List Char) (hL : ∀ c ∈ L, digitOrDot c) :
    L.map Char.toLower = L := by
  induction L with
  | nil => rfl
  | cons a t ih =>
    simp only [List.map_cons, List.cons.injEq]
    exact ⟨digitOrDot_toLower a (hL a (by simp)),
      ih (fun c hc => hL c (by simp [hc]))⟩

/-- Lowering fixes the whole size text when the unit letter is already
lower case. -/
theorem pyLower_numText_unit (L : List Char) (u : Char)
    (hL : ∀ c ∈ L, digitOrDot c) (hu : u.toLower = u) :
    pyLower ⟨L ++ [' ', u]⟩ = ⟨L ++ [' ', u]⟩ := by
  unfold pyLower
  simp only [List.map_append, List.map_cons, List.map_nil]
  rw [map_toLower_digitOrDot L hL, hu, show (' ' : Char).toLower = ' ' from by decide]

/-- The size text contains its own unit letter. -/
theorem containsChar_append_unit_self (L : List Char) (u : Char) :
    containsChar ⟨L ++ [' ', u]⟩ u = true := by
  simp [containsChar, List.contains_iff_exists_mem_beq]

/-- The size text does not contain a character that differs from all of
its characters. -/
theorem containsChar_append_unit_ne (L : List Char) (u c : Char)
    (h1 : ∀ x ∈ L, x ≠ c) (h2 : ' ' ≠ c) (h3 : u ≠ c) :
    containsChar ⟨L ++ [' ', u]⟩ c = false := by
  simp only [containsChar]
  rw [← Bool.not_eq_true]
  intro hcon
  rw [List.contains_iff_exists_mem_beq] at hcon
  obtain ⟨x, hx, hbeq⟩ := hcon
  have hxc : c = x := by simpa using hbeq
  subst hxc
  simp only [List.mem_append, List.mem_cons, List.not_mem_nil, or_false] at hx
  rcases hx with hx | hx | hx
  · exact h1 c hx rfl
  · exact h2 hx.symm
  · exact h3 hx.symm

/-- Removing the unit letter from the size text leaves the numeric part
followed by the separating space. -/
theorem removeAllChar_append_unit (L : List Char) (u : Char)
    (hL : ∀ x ∈ L, x ≠ u) (hsp : ' ' ≠ u) :
    removeAllChar ⟨L ++ [' ', u]⟩ u = ⟨L ++ [' ']⟩ := by
  unfold removeAllChar
  have hfL : List.filter (fun x => decide (x ≠ u)) L = L := by
    rw [List.filter_eq_self]
    intro a ha
    simpa using hL a ha
  have hfu : List.filter (fun x => decide (x ≠ u)) [' ', u] = [' '] := by
    simp [hsp]
  simp only [List.filter_append, hfL, hfu]

/-- Stripping the trailing space recovers the numeric part. -/
theorem pyStrip_append_space (L : List Char)
    (hL : ∀ x ∈ L, pyIsSpace x = false) (hne : L ≠ []) :
    pyStrip ⟨L ++ [' ']⟩ = ⟨L⟩ := by
  unfold pyStrip stripList
  congr 1
  have hdrop1 : (L ++ [' ']).dropWhile pyIsSpace = L ++ [' '] := by
    cases L with
    | nil => exact absurd rfl hne
    | cons a t =>
      simp only [List.cons_append, List.dropWhile_cons]
      rw [hL a (by simp)]
      simp
  rw [hdrop1]
  have hrev : (L ++ [' ']).reverse = ' ' :: L.reverse := by
    simp
  rw [hrev]
  have hsp : pyIsSpace ' ' = true := by decide
  simp only [List.dropWhile_cons, hsp, if_true]
  have hdrop2 : L.reverse.dropWhile pyIsSpace = L.reverse := by
    cases hr : L.reverse with
    | nil => simp
    | cons b t =>
      have hb : b ∈ L := by
        have : b ∈ L.reverse := by rw [hr]; simp
        simpa using this
      simp only [List.dropWhile_cons]
      rw [hL b hb]
      simp
  rw [hdrop2, List.reverse_reverse]

/-- Evaluation of the empty numeric text, used to rule it out. -/
theorem parseDecimal_empty : parseDecimal ⟨[]⟩ = none := rfl

/-- The three unit branches of the Size conversion: appending a space
and a lower-case unit letter to the numeric text selects the matching
branch, which recovers the numeric value and scales it by the unit
factor, truncating to int. -/
theorem parse_size_bytes_branches (L : List Char) (v : ℚ)
    (hchars : ∀ c ∈ L, digitOrDot c) (hLne : L ≠ [])
    (hparse : parseDecimal ⟨L⟩ = some v) :
    parse_size_bytes ⟨L ++ [' ', 'k']⟩ = some (pyIntTrunc (v * 1024)) ∧
    parse_size_bytes ⟨L ++ [' ', 'm']⟩ = some (pyIntTrunc (v * 1024 * 1024)) ∧
    parse_size_bytes ⟨L ++ [' ', 'g']⟩ = some (pyIntTrunc (v * 1024 * 1024 * 1024)) := by
  have hnotsp : ∀ x ∈ L, pyIsSpace x = false := fun x hx => digitOrDot_not_space x (hchars x hx)
  have hnek : ∀ x ∈ L, x ≠ 'k' := fun x hx => (digitOrDot_ne_unit x (hchars x hx)).1
  have hnem : ∀ x ∈ L, x ≠ 'm' := fun x hx => (digitOrDot_ne_unit x (hchars x hx)).2.1
  have hneg : ∀ x ∈ L, x ≠ 'g' := fun x hx => (digitOrDot_ne_unit x (hchars x hx)).2.2
  refine ⟨?_, ?_, ?_⟩
  · unfold parse_size_bytes
    rw [pyLower_numText_unit L 'k' hchars (by decide),
      containsChar_append_unit_self L 'k', if_pos rfl,
      removeAllChar_append_unit L 'k' hnek (by decide),
      pyStrip_append_space L hnotsp hLne, hparse]
    rfl
  · unfold parse_size_bytes
    rw [pyLower_numText_unit L 'm' hchars (by decide),
      containsChar_append_unit_ne L 'm' 'k' hnek (by decide) (by decide),
      if_neg Bool.false_ne_true,
      containsChar_append_unit_self L 'm', if_pos rfl,
      removeAllChar_append_unit L 'm' hnem (by decide),
      pyStrip_append_space L hnotsp hLne, hparse]
    rfl
  · unfold parse_size_bytes
    rw [pyLower_numText_unit L 'g' hchars (by decide),
      containsChar_append_unit_ne L 'g' 'k' hnek (by decide) (by decide),
      if_neg Bool.false_ne_true,
      containsChar_append_unit_ne L 'g' 'm' hnem (by decide) (by decide),
      if_neg Bool.false_ne_true,
      containsChar_append_unit_self L 'g', if_pos rfl,
      removeAllChar_append_unit L 'g' hneg (by decide),
      pyStrip_append_space L hnotsp hLne, hparse]
    rfl

/-- Floor stays within one unit of its argument. -/
theorem floor_within_one (x : ℚ) : |((⌊x⌋ : Int) : ℚ) - x| ≤ 1 := by
  have h1 : ((⌊x⌋ : Int) : ℚ) ≤ x := Int.floor_le x
  have h2 : x - 1 < ((⌊x⌋ : Int) : ℚ) := Int.sub_one_lt_floor x
  rw [abs_le]
  constructor <;> linarith

/-- C4: for every size text of the form value-space-unit with unit k, m
or g, the size_bytes computed by the Size branch of get_package_details
is the floor of value times 1024 to the power 1, 2 or 3 respectively,
which is within one unit of the exact product. -/
theorem get_package_details_size_conversion (numText : String) (v : ℚ)
    (hchars : ∀ c ∈ numText.data, digitOrDot c)
    (hparse : parseDecimal numText = some v) (hv : 0 ≤ v) :
    (parse_size_bytes ⟨numText.data ++ [' ', 'k']⟩ = some ⌊v * 1024 ^ 1⌋ ∧
      |((⌊v * 1024 ^ 1⌋ : Int) : ℚ) - v * 1024 ^ 1| ≤ 1) ∧
    (parse_size_bytes ⟨numText.data ++ [' ', 'm']⟩ = some ⌊v * 1024 ^ 2⌋ ∧
      |((⌊v * 1024 ^ 2⌋ : Int) : ℚ) - v * 1024 ^ 2| ≤ 1) ∧
    (parse_size_bytes ⟨numText.data ++ [' ', 'g']⟩ = some ⌊v * 1024 ^ 3⌋ ∧
      |((⌊v * 1024 ^ 3⌋ : Int) : ℚ) - v * 1024 ^ 3| ≤ 1) := by
  obtain ⟨L⟩ := numText
  simp only [String.data] at hchars ⊢
  have hLne : L ≠ [] := by
    intro h
    subst h
    rw [parseDecimal_empty] at hparse
    exact Option.noConfusion hparse
  obtain ⟨hk, hm, hg⟩ := parse_size_bytes_branches L v hchars hLne hparse
  have e1 : v * 1024 = v * 1024 ^ 1 := by ring
  have e2 : v * 1024 * 1024 = v * 1024 ^ 2 := by ring
  have e3 : v * 1024 * 1024 * 1024 = v * 1024 ^ 3 := by ring
  have t1 : pyIntTrunc (v * 1024 ^ 1) = ⌊v * 1024 ^ 1⌋ := by
    unfold pyIntTrunc
    rw [if_pos (by positivity)]
  have t2 : pyIntTrunc (v * 1024 ^ 2) = ⌊v * 1024 ^ 2⌋ := by
    unfold pyIntTrunc
    rw [if_pos (by positivity)]
  have t3 : pyIntTrunc (v * 1024 ^ 3) = ⌊v * 1024 ^ 3⌋ := by
    unfold pyIntTrunc
    rw [if_pos (by positivity)]
  rw [e1] at hk
  rw [e2] at hm
  rw [e3] at hg
  exact ⟨⟨by rw [hk, t1], floor_within_one _⟩,
    ⟨by rw [hm, t2], floor_within_one _⟩,
    ⟨by rw [hg, t3], floor_within_one _⟩⟩

/-- Witness for C4 at the concrete size text 305 k / m / g. -/
theorem get_package_details_size_conversion_witness :
    (∀ c ∈ ("305" : String).data, digitOrDot c) ∧
    parseDecimal "305" = some 305 ∧ (0 : ℚ) ≤ 305 ∧
    ((parse_size_bytes ⟨("305" : String).data ++ [' ', 'k']⟩ = some ⌊(305 : ℚ) * 1024 ^ 1⌋ ∧
      |((⌊(305 : ℚ) * 1024 ^ 1⌋ : Int) : ℚ) - (305 : ℚ) * 1024 ^ 1| ≤ 1) ∧
    (parse_size_bytes ⟨("305" : String).data ++ [' ', 'm']⟩ = some ⌊(305 : ℚ) * 1024 ^ 2⌋ ∧
      |((⌊(305 : ℚ) * 1024 ^ 2⌋ : Int) : ℚ) - (305 : ℚ) * 1024 ^ 2| ≤ 1) ∧
    (parse_size_bytes ⟨("305" : String).data ++ [' ', 'g']⟩ = some ⌊(305 : ℚ) * 1024 ^ 3⌋ ∧
      |((⌊(305 : ℚ) * 1024 ^ 3⌋ : Int) : ℚ) - (305 : ℚ) * 1024 ^ 3| ≤ 1)) :=
  ⟨by decide, by decide, by norm_num,
    get_package_details_size_conversion "305" 305 (by decide) (by decide) (by norm_num)⟩

/-! ### Timestamped filenames (C5, C9) -/

/-- A fixed-width digit rendering has exactly its width. -/
theorem padDigitsBE_length (w : Nat) : ∀ n, (padDigitsBE w n).length = w := by
  induction w with
  | zero => intro n; rfl
  | succ w ih =>
    intro n
    simp [padDigitsBE, ih]

/-- Every entry of a fixed-width digit rendering is a digit value. -/
theorem padDigitsBE_lt10 (w : Nat) : ∀ n, ∀ x ∈ padDigitsBE w n, x < 10 := by
  induction w with
  | zero => intro n x hx; simp [padDigitsBE] at hx
  | succ w ih =>
    intro n x hx
    simp only [padDigitsBE, List.mem_append, List.mem_singleton] at hx
    rcases hx with hx | hx
    · exact ih (n / 10) x hx
    · subst hx; omega

/-- Fixed-width digit renderings are injective below the width bound. -/
theorem padDigitsBE_inj (w : Nat) : ∀ n m, n < 10 ^ w → m < 10 ^ w →
    padDigitsBE w n = padDigitsBE w m → n = m := by
  induction w with
  | zero =>
    intro n m hn hm _
    simp only [pow_zero, Nat.lt_one_iff] at hn hm
    omega
  | succ w ih =>
    intro n m hn hm h
    simp only [padDigitsBE] at h
    have hlen : (padDigitsBE w (n / 10)).length = (padDigitsBE w (m / 10)).length := by
      simp [padDigitsBE_length]
    obtain ⟨h1, h2⟩ := List.append_inj h hlen
    have hn10 : n / 10 < 10 ^ w := by
      rw [pow_succ] at hn
      omega
    have hm10 : m / 10 < 10 ^ w := by
      rw [pow_succ] at hm
      omega
    have hdiv : n / 10 = m / 10 := ih (n / 10) (m / 10) hn10 hm10 h1
    have hmod : n % 10 = m % 10 := by
      simpa using h2
    omega

/-- The ten digit characters are pairwise distinct. -/
theorem digitChar10_inj : ∀ a < 10, ∀ b < 10, digitChar10 a = digitChar10 b → a = b := by
  decide

/-- Character renderings of digit lists are injective. -/
theorem map_digitChar10_inj : ∀ l1 l2 : List Nat, (∀ x ∈ l1, x < 10) → (∀ x ∈ l2, x < 10) →
    l1.map digitChar10 = l2.map digitChar10 → l1 = l2 := by
  intro l1
  induction l1 with
  | nil =>
    intro l2 _ _ h
    cases l2 with
    | nil => rfl
    | cons b t => simp at h
  | cons a t ih =>
    intro l2 h1 h2 h
    cases l2 with
    | nil => simp at h
    | cons b t2 =>
      simp only [List.map_cons, List.cons.injEq] at h
      have hab : a = b :=
        digitChar10_inj a (h1 a (by simp)) b (h2 b (by simp)) h.1
      have ht : t = t2 :=
        ih t2 (fun x hx => h1 x (by simp [hx])) (fun x hx => h2 x (by simp [hx])) h.2
      rw [hab, ht]

/-- Zero-padded renderings have exactly their width. -/
theorem padNumChars_length (w n : Nat) : (padNumChars w n).length = w := by
  simp [padNumChars, padDigitsBE_length]

/-- Zero-padded renderings are injective below the width bound. -/
theorem padNumChars_inj (w n m : Nat) (hn : n < 10 ^ w) (hm : m < 10 ^ w)
    (h : padNumChars w n = padNumChars w m) : n = m := by
  exact padDigitsBE_inj w n m hn hm
    (map_digitChar10_inj _ _ (padDigitsBE_lt10 w n) (padDigitsBE_lt10 w m) h)

/-- The strftime rendering determines the timestamp: two width-bounded
timestamps with the same rendered character data are equal. -/
theorem strftime_Ymd_HMS_inj (t1 t2 : Timestamp)
    (h1 : t1.widthBounded) (h2 : t2.widthBounded)
    (h : (strftime_Ymd_HMS t1).data = (strftime_Ymd_HMS t2).data) : t1 = t2 := by
  obtain ⟨hy1, hmo1, hd1, hh1, hmi1, hs1⟩ := h1
  obtain ⟨hy2, hmo2, hd2, hh2, hmi2, hs2⟩ := h2
  have hp4 : (10 : Nat) ^ 4 = 10000 := by norm_num
  have hp2 : (10 : Nat) ^ 2 = 100 := by norm_num
  simp only [strftime_Ymd_HMS, List.append_assoc] at h
  obtain ⟨hy, h⟩ := List.append_inj h (by simp [padNumChars_length])
  obtain ⟨hmo, h⟩ := List.append_inj h (by simp [padNumChars_length])
  obtain ⟨hd, h⟩ := List.append_inj h (by simp [padNumChars_length])
  have h' : padNumChars 2 t1.hour ++ (padNumChars 2 t1.minute ++ padNumChars 2 t1.second) =
      padNumChars 2 t2.hour ++ (padNumChars 2 t2.minute ++ padNumChars 2 t2.second) := by
    simpa using h
  obtain ⟨hh, h''⟩ := List.append_inj h' (by simp [padNumChars_length])
  obtain ⟨hmi, hs⟩ := List.append_inj h'' (by simp [padNumChars_length])
  obtain ⟨y1, mo1, d1, ho1, mi1, s1⟩ := t1
  obtain ⟨y2, mo2, d2, ho2, mi2, s2⟩ := t2
  simp only at hy hmo hd hh hmi hs hy1 hmo1 hd1 hh1 hmi1 hs1 hy2 hmo2 hd2 hh2 hmi2 hs2
  simp only [Timestamp.mk.injEq]
  exact ⟨padNumChars_inj 4 _ _ (hp4 ▸ hy1) (hp4 ▸ hy2) hy,
    padNumChars_inj 2 _ _ (hp2 ▸ hmo1) (hp2 ▸ hmo2) hmo,
    padNumChars_inj 2 _ _ (hp2 ▸ hd1) (hp2 ▸ hd2) hd,
    padNumChars_inj 2 _ _ (hp2 ▸ hh1) (hp2 ▸ hh2) hh,
    padNumChars_inj 2 _ _ (hp2 ▸ hmi1) (hp2 ▸ hmi2) hmi,
    padNumChars_inj 2 _ _ (hp2 ▸ hs1) (hp2 ▸ hs2) hs⟩

/-- C5: two save_report invocations under the same configuration whose
current timestamps differ at second granularity compute distinct file
paths, so the second write cannot overwrite the file created by the
first. -/
theorem save_report_paths_distinct (cfg : Option String) (t1 t2 : Timestamp)
    (h1 : t1.widthBounded) (h2 : t2.widthBounded) (hne : t1 ≠ t2) :
    save_filepath cfg t1 ≠ save_filepath cfg t2 := by
  intro heq
  apply hne
  apply strftime_Ymd_HMS_inj t1 t2 h1 h2
  have hd := congrArg String.data heq
  simp only [save_filepath, save_filename, String.data_append, List.append_assoc] at hd
  have hd1 := List.append_cancel_left hd
  have hd2 := List.append_cancel_left hd1
  have hd3 := List.append_cancel_left hd2
  exact List.append_cancel_right hd3

/-- Witness for C5: two wall-clock readings one second apart give
distinct report paths. -/
theorem save_report_paths_distinct_witness :
    Timestamp.widthBounded ⟨2025, 10, 12, 9, 30, 0⟩ ∧
    Timestamp.widthBounded ⟨2025, 10, 12, 9, 30, 1⟩ ∧
    (⟨2025, 10, 12, 9, 30, 0⟩ : Timestamp) ≠ ⟨2025, 10, 12, 9, 30, 1⟩ ∧
    save_filepath none ⟨2025, 10, 12, 9, 30, 0⟩ ≠ save_filepath none ⟨2025, 10, 12, 9, 30, 1⟩ :=
  ⟨by decide, by decide, by decide,
    save_report_paths_distinct none _ _ (by decide) (by decide) (by decide)⟩

/-- Digit-value characters satisfy the digit test. -/
theorem digitChar10_isDigit : ∀ x < 10, pyIsDigit (digitChar10 x) = true := by
  decide

/-- Every zero-padded rendering consists of digit characters. -/
theorem padNumChars_all_digit (w n : Nat) : (padNumChars w n).all pyIsDigit = true := by
  rw [List.all_eq_true]
  intro c hc
  simp only [padNumChars, List.mem_map] at hc
  obtain ⟨x, hx, hcx⟩ := hc
  have hx10 : x < 10 := padDigitsBE_lt10 w n x hx
  subst hcx
  exact digitChar10_isDigit x hx10

/-- C9: the file path computed by save_report is the configured output
directory joined with packages_, the strftime timestamp and the .json
suffix; the timestamp renders as eight digits, an underscore and six
digits; and the persisted content is the JSON document of the report. -/
theorem save_report_filename_pattern (rep : Report) (cfg : Option String) (t : Timestamp)
    (_h : t.widthBounded) :
    (save_report rep cfg t).1 =
      output_dir_of cfg ++ "/" ++ ("packages_" ++ strftime_Ymd_HMS t ++ ".json") ∧
    (∃ datePart timePart : List Char,
      (strftime_Ymd_HMS t).data = datePart ++ '_' :: timePart ∧
      datePart.length = 8 ∧ timePart.length = 6 ∧
      datePart.all pyIsDigit = true ∧ timePart.all pyIsDigit = true) ∧
    (save_report rep cfg t).2 = reportToJson rep := by
  refine ⟨rfl, ?_, rfl⟩
  refine ⟨padNumChars 4 t.year ++ padNumChars 2 t.month ++ padNumChars 2 t.day,
    padNumChars 2 t.hour ++ padNumChars 2 t.minute ++ padNumChars 2 t.second, rfl, ?_, ?_, ?_, ?_⟩
  · simp [padNumChars_length]
  · simp [padNumChars_length]
  · simp [List.all_append, padNumChars_all_digit]
  · simp [List.all_append, padNumChars_all_digit]

/-- Witness for C9 at a concrete report, configuration and timestamp. -/
theorem save_report_filename_pattern_witness :
    Timestamp.widthBounded ⟨2025, 10, 12, 9, 30, 0⟩ ∧
    ((save_report ⟨"t", 0, [], [], []⟩ none ⟨2025, 10, 12, 9, 30, 0⟩).1 =
      output_dir_of none ++ "/" ++
        ("packages_" ++ strftime_Ymd_HMS ⟨2025, 10, 12, 9, 30, 0⟩ ++ ".json") ∧
    (∃ datePart timePart : List Char,
      (strftime_Ymd_HMS ⟨2025, 10, 12, 9, 30, 0⟩).data = datePart ++ '_' :: timePart ∧
      datePart.length = 8 ∧ timePart.length = 6 ∧
      datePart.all pyIsDigit = true ∧ timePart.all pyIsDigit = true) ∧
    (save_report ⟨"t", 0, [], [], []⟩ none ⟨2025, 10, 12, 9, 30, 0⟩).2 =
      reportToJson ⟨"t", 0, [], [], []⟩) :=
  ⟨by decide,
    save_report_filename_pattern ⟨"t", 0, [], [], []⟩ none ⟨2025, 10, 12, 9, 30, 0⟩ (by decide)⟩

/-- Witness for C8 at a concrete nonempty key. -/
theorem reporter_requires_api_key_witness :
    (reporter_startup (some "key") = .error 1 ↔
      (some "key" = none ∨ some "key" = some "")) ∧
    ¬("key" : String) = "" ∧ reporter_startup (some "key") = .ok "key" :=
  ⟨(reporter_requires_api_key (some "key")).1, by decide,
    (reporter_requires_api_key (some "key")).2 "key" (by decide)⟩
